import Mathlib

/-!
Shallow embedding of `svutRun.py` (SVUT test runner).

Modelling conventions:
* The filesystem is a list `fs : List String` of the names of existing
  regular files, as seen by `os.path.isfile`.
* The working-directory listing (`os.listdir`) is a list `entries` of names.
* `os.system` is modelled by `exec : Nat → String → Nat`, giving the exit
  status of the k-th shell invocation of the run (indexed so that a command
  string appearing twice may succeed once and fail once, as in reality).
* `sys.exit(n)` is modelled by returning a `RunResult` carrying the code.
* Printing is modelled by accumulating `OutEvent`s; wall-clock timestamps and
  elapsed-time values are abstracted into parameterless event constructors.
-/

namespace SvutRun

/-- Helper for `strContains`: does `needle` occur inside the second list? -/
def containsAux (needle : List Char) : List Char → Bool
  | [] => needle.isEmpty
  | c :: t => needle.isPrefixOf (c :: t) || containsAux needle t

/-- Python's `needle in hay` substring test on strings. -/
def strContains (hay needle : String) : Bool :=
  containsAux needle.toList hay.toList

/-- Python's `s.startswith(pre)`. -/
def pyStartswith (s pre : String) : Bool :=
  pre.toList.isPrefixOf s.toList

/-- Python's `s.endswith(suf)`. -/
def pyEndswith (s suf : String) : Bool :=
  suf.toList.isSuffixOf s.toList

/-- Python's `s[-n:]`: the last `n` characters (the whole string when it is
shorter than `n`). -/
def pyTail (n : Nat) (s : String) : String :=
  ⟨s.toList.drop (s.toList.length - n)⟩

/-- Helper for `pySplit`: split a character list at every occurrence of the
separator, keeping empty chunks, `chunk` being the (reversed) piece read so
far. -/
def pySplitAux (sep : Char) : List Char → List Char → List (List Char)
  | chunk, [] => [chunk.reverse]
  | chunk, c :: t =>
    if c = sep then chunk.reverse :: pySplitAux sep [] t
    else pySplitAux sep (c :: chunk) t

/-- Python's `s.split(sep)` for a one-character separator: empty pieces from
consecutive separators are kept, and the result is never empty. -/
def pySplit (sep : Char) (s : String) : List String :=
  (pySplitAux sep [] s.toList).map (fun cs => ⟨cs⟩)

/-- Python's `s.lower()` (ASCII range, which is all this program feeds it). -/
def pyLower (s : String) : String :=
  ⟨s.toList.map Char.toLower⟩

/-- Python's `sep.join(parts)`. -/
def pyJoin (sep : String) : List String → String
  | [] => ""
  | [x] => x
  | x :: y :: t => x ++ sep ++ pyJoin sep (y :: t)

/-- Python's `os.path.basename`: the text after the last `/`. -/
def pyBasename (s : String) : String :=
  (pySplit '/' s).getLastD s

/-- The parsed CLI configuration (`ARGS` after `parse_args`), with the
`-test all` default already resolved to a list of file names.
`includeDirs` embeds `args.include` (`include` is a Lean keyword). -/
structure Args where
  test : List String
  dotfile : List String
  simulator : String
  main : String
  define : String
  vpi : String
  gui : Bool
  dry : Bool
  includeDirs : List String
  deriving Repr, DecidableEq

/-- `get_defines`: format a `;`-separated define string into `-D` flags.
Empty segments (from consecutive `;`) produce no flag. -/
def get_defines (defines : String) : String :=
  if defines = "" then ""
  else (pySplit ';' defines).foldl
    (fun simdefs d => if d ≠ "" then simdefs ++ "-D" ++ d ++ " " else simdefs) ""

/-- The fixed filename start patterns recognized by `find_unit_tests`. -/
def supported_prefixes : List String :=
  ["tb_", "ts_", "testbench_", "testsuite_", "unit_test_"]

/-- The fixed filename end patterns recognized by `find_unit_tests`. -/
def supported_suffixes : List String :=
  ["_unit_test.v", "_unit_test.sv",
   "_testbench.v", "_testbench.sv",
   "_testsuite.v", "_testsuite.sv",
   "_tb.v", "_tb.sv", "_ts.v", "_ts.sv"]

/-- The appends performed for one directory entry by the two inner loops of
`find_unit_tests`: one copy of the name per matching suffix, then one per
matching prefix; nothing if the entry is not a regular file. -/
def entryMatches (fs : List String) (f : String) : List String :=
  if f ∈ fs then
    ((supported_suffixes.filter (fun suf => pyEndswith f suf)).map (fun _ => f)) ++
    ((supported_prefixes.filter (fun pre => pyStartswith f pre)).map (fun _ => f))
  else []

/-- `find_unit_tests`: scan the directory listing, collect names matching a
supported suffix or a supported one of the start patterns, then deduplicate
(`list(set(files))`; the Python set's order is arbitrary, we keep first
occurrences). -/
def find_unit_tests (entries fs : List String) : List String :=
  (entries.flatMap (entryMatches fs)).dedup

/-- Resolution of `-test`: the literal default `all` triggers discovery. -/
def resolve_tests (entries fs : List String) (t : Option (List String)) : List String :=
  match t with
  | none => find_unit_tests entries fs
  | some ts => ts

/-- The error message printed when a test file has no supported extension
(the Python source's backslash line continuation embeds the indentation). -/
def extErrorMsg : String :=
  "ERROR: failed to find supported extension.                Must use either *.v or *.sv"

/-- The extension gate shared by both builders:
`test[-2:] != ".v" and test[-3:] != ".sv"`. -/
def badExtension (test : String) : Bool :=
  pyTail 2 test ≠ ".v" && pyTail 3 test ≠ ".sv"

/-- The ` -f <dotfiles>` fragment shared by both builders: concatenate the
dot files that exist, and emit the flag only when that is non-empty. -/
def dotfileFragment (args : Args) (fs : List String) : String :=
  if args.dotfile ≠ [] then
    let dotfiles := args.dotfile.foldl
      (fun acc dot => if dot ∈ fs then acc ++ dot ++ " " else acc) ""
    if dotfiles ≠ "" then "-f " ++ dotfiles ++ " " else ""
  else ""

/-- `create_iverilog`: build the Icarus Verilog command list, or fail
(`sys.exit(1)` with a message) on an unsupported extension. -/
def create_iverilog (args : Args) (fs : List String) (test : String) :
    Except String (List String) :=
  let cmds : List String := ["rm -f icarus.out"]
  let cmd := "iverilog -g2012 -Wall -o icarus.out "
  let cmd := if args.define ≠ "" then cmd ++ get_defines args.define else cmd
  let cmd := cmd ++ dotfileFragment args fs
  let cmd := if args.includeDirs ≠ [] then
      cmd ++ "-I " ++ pyJoin " " args.includeDirs ++ " "
    else cmd
  let cmd := cmd ++ test ++ " "
  if badExtension test then
    .error extErrorMsg
  else
    let cmds := cmds ++ [cmd]
    let cmd := "vvp "
    let cmd := if args.vpi ≠ "" then cmd ++ args.vpi ++ " " else cmd
    let cmd := cmd ++ "icarus.out "
    let cmd := if args.gui then cmd ++ "-lxt;" else cmd
    let cmds := cmds ++ [cmd]
    if args.gui then
      if "wave.gtkw" ∈ fs then
        .ok (cmds ++ ["gtkwave *.lxt wave.gtkw &"])
      else
        .ok (cmds ++ ["gtkwave *.lxt &"])
    else
      .ok cmds

/-- The module name derived by `create_verilator`:
`os.path.basename(test).split(".")[0]`. -/
def verilatorTestname (test : String) : String :=
  (pySplit '.' (pyBasename test)).headD ""

/-- The part of the Verilator compile command built before the extension
check: fixed flags, defines, dot files and `+incdir+` include directories. -/
def verilatorFlags (args : Args) (fs : List String) : String :=
  let cmd := "verilator -Wall --trace --Mdir build +1800-2017ext+sv "
  let cmd := cmd ++ "+1800-2005ext+v -Wno-STMTDLY -Wno-UNUSED -Wno-UNDRIVEN -Wno-PINCONNECTEMPTY "
  let cmd := cmd ++ "-Wpedantic -Wno-VARHIDDEN -Wno-lint "
  let cmd := if args.define ≠ "" then cmd ++ get_defines args.define else cmd
  let cmd := cmd ++ dotfileFragment args fs
  if args.includeDirs ≠ [] then
    args.includeDirs.foldl (fun acc inc => acc ++ "+incdir+" ++ inc ++ " ") cmd
  else cmd

/-- `create_verilator`: build the Verilator command list, or fail
(`sys.exit(1)` with a message) on an unsupported extension. -/
def create_verilator (args : Args) (fs : List String) (test : String) :
    Except String (List String) :=
  let testname := verilatorTestname test
  let cmds : List String := ["rm -fr build"]
  let cmd := verilatorFlags args fs
  if badExtension test then
    .error extErrorMsg
  else
    let cmd := cmd ++ "-cc --exe --build -j --top-module " ++ testname ++ " "
    let cmd := cmd ++ test ++ " " ++ args.main
    let cmds := cmds ++ [cmd]
    let cmds := cmds ++ ["make -j -C build -f V" ++ testname ++ ".mk V" ++ testname]
    let cmds := cmds ++ ["build/V" ++ testname]
    .ok cmds

/-- One printed output item.  Banners (`print_event`) and the elapsed-time
line carry wall-clock data; that data is abstracted away, the event itself is
kept so the output order is faithful. -/
inductive OutEvent where
  | line (s : String)
  | cmdList (cs : List String)
  | banner (event : String) (tag : String)
  | elapsed
  deriving Repr, DecidableEq

/-- Result of one process run (`sys.exit` reached, or the script fell off the
end of the loop): the exit code, the printed output, the constructed commands
actually handed to `os.system` (in order), and the final state of `ARGS`. -/
structure RunResult where
  exitCode : Nat
  output : List OutEvent
  ran : List String
  finalArgs : Args
  deriving Repr, DecidableEq

/-- The inner command loop of `__main__`: print each command, run it, and on
the first non-zero status normalize `cmdret` to 1, print the diagnostic and
break.  `k` is the index of the next shell invocation for `exec`.
Returns the final `cmdret`, the printed output, and the commands run. -/
def run_commands (exec : Nat → String → Nat) :
    Nat → List String → Nat × List OutEvent × List String
  | _, [] => (0, [], [])
  | k, c :: rest =>
    if exec k c ≠ 0 then
      (1, [.line c, .line ("ERROR: Command failed: " ++ c)], [c])
    else
      let (r, out, ran) := run_commands exec (k + 1) rest
      (r, .line c :: out, c :: ran)

/-- The body of the per-test loop of `__main__` after the command list has
been built: the `svut_h.sv` sync (its `cp` is modelled by the `needHeaderCopy`
flag and the INFO line, not counted in `ran`), the dry-run branch, and the
timed execution.  Every path ends in `sys.exit`. -/
def runBuilt (gitTag : String) (needHeaderCopy : Bool) (exec : Nat → String → Nat)
    (cfg : Args) (cmds : List String) : RunResult :=
  let headerOut : List OutEvent :=
    if needHeaderCopy then [.line "INFO: Copy newest version of svut_h.sv"] else []
  if cfg.dry then
    { exitCode := 0
      output := headerOut ++ [.line ("SVUT " ++ gitTag ++ " dry-run: "), .cmdList cmds]
      ran := []
      finalArgs := cfg }
  else
    let (cmdret, out, ran) := run_commands exec 0 cmds
    { exitCode := cmdret
      output := headerOut ++ [.banner "Start" gitTag] ++ out ++ [.elapsed, .banner "Stop" gitTag]
      ran := ran
      finalArgs := cfg }

/-- The simulator dispatch of the loop body: substring match of the (already
lowercased) simulator name against `iverilog`/`icarus`, then `verilator`;
anything else is unsupported (`none`). -/
def chooseBuilder (sim : String) :
    Option (Args → List String → String → Except String (List String)) :=
  if strContains sim "iverilog" || strContains sim "icarus" then
    some create_iverilog
  else if strContains sim "verilator" then
    some create_verilator
  else
    none

/-- One iteration of `for tests in ARGS.test`: lower the simulator name in
place, pick the builder by substring match (any other name is fatal), then
run.  Every path through the body reaches a `sys.exit`. -/
def runTest (gitTag : String) (needHeaderCopy : Bool) (exec : Nat → String → Nat)
    (fs : List String) (cfg : Args) (test : String) : RunResult :=
  let cfg := { cfg with simulator := pyLower cfg.simulator }
  match chooseBuilder cfg.simulator with
  | some builder =>
    match builder cfg fs test with
    | .error e => { exitCode := 1, output := [.line e], ran := [], finalArgs := cfg }
    | .ok cmds => runBuilt gitTag needHeaderCopy exec cfg cmds
  | none =>
    { exitCode := 1
      output := [.line "ERROR: Simulator not supported. Icarus is the only option"]
      ran := []
      finalArgs := cfg }

/-- The `for tests in ARGS.test` loop.  The loop body ends in `sys.exit` on
every path (`sys.exit(1)` on configuration errors, `sys.exit(0)` on dry-run,
and the trailing `sys.exit(cmdret)`), so an iteration never falls through to
the rest of the list; an empty list falls off the loop and the script ends
with status 0. -/
def runMain (gitTag : String) (needHeaderCopy : Bool) (exec : Nat → String → Nat)
    (fs : List String) (cfg : Args) : RunResult :=
  match cfg.test with
  | [] => { exitCode := 0, output := [], ran := [], finalArgs := cfg }
  | t :: _rest => runTest gitTag needHeaderCopy exec fs cfg t

/-- A configuration with every CLI option at its parser default, the test
list resolved to two discovered files. -/
def sampleArgs : Args :=
  { test := ["tb_a.sv", "tb_b.sv"]
    dotfile := ["files.f"]
    simulator := "icarus"
    main := "sim_main.cpp"
    define := ""
    vpi := ""
    gui := false
    dry := false
    includeDirs := [] }

/-- A shell where only the third invocation of the run (index 2, the `vvp`
run command of the first test) fails; every other invocation, in particular
every invocation a second test would make, succeeds. -/
def execFailThird : Nat → String → Nat :=
  fun k _ => if k = 2 then 1 else 0

/-- A shell where only the second invocation of the run (index 1, the
`iverilog` compile command of the first test) fails. -/
def execFailSecond : Nat → String → Nat :=
  fun k _ => if k = 1 then 1 else 0

/-- A shell where every invocation succeeds. -/
def execAllOk : Nat → String → Nat :=
  fun _ _ => 0

/-! ## Helper lemmas -/

/-- A file is in the appends for one entry exactly when it is that entry,
the entry is a regular file, and the entry matches a supported suffix or a
supported start pattern. -/
theorem mem_entryMatches (fs : List String) (e f : String) :
    f ∈ entryMatches fs e ↔
      f = e ∧ e ∈ fs ∧
        ((∃ s ∈ supported_suffixes, pyEndswith e s = true) ∨
         (∃ p ∈ supported_prefixes, pyStartswith e p = true)) := by
  unfold entryMatches
  split
  · simp only [List.mem_append, List.mem_map, List.mem_filter]
    aesop
  · aesop

/-- The inner command loop only ever reports result code 0 or 1. -/
theorem run_commands_code (exec : Nat → String → Nat) :
    ∀ (cmds : List String) (k : Nat),
      (run_commands exec k cmds).1 = 0 ∨ (run_commands exec k cmds).1 = 1
  | [], _ => Or.inl rfl
  | c :: rest, k => by
    unfold run_commands
    split
    · exact Or.inr rfl
    · exact run_commands_code exec rest (k + 1)

/-- If the commands before `c` all succeed and `c` fails, the inner command
loop prints each command, prints the diagnostic for `c`, runs exactly the
commands up to and including `c`, and reports result code 1. -/
theorem run_commands_fail (exec : Nat → String → Nat) :
    ∀ (pre : List String) (k : Nat) (c : String) (post : List String),
      (∀ i (hi : i < pre.length), exec (k + i) (pre.get ⟨i, hi⟩) = 0) →
      exec (k + pre.length) c ≠ 0 →
      run_commands exec k (pre ++ c :: post) =
        (1, (pre.map OutEvent.line) ++
              [.line c, .line ("ERROR: Command failed: " ++ c)],
         pre ++ [c])
  | [], k, c, post, _, hc => by
    have hc' : exec k c ≠ 0 := by simpa using hc
    simp [run_commands, hc']
  | p :: pre, k, c, post, hpre, hc => by
    have hp : exec k p = 0 := by simpa using hpre 0 (by simp)
    have ih := run_commands_fail exec pre (k + 1) c post
      (fun i hi => by
        have h1 := hpre (i + 1) (by simpa using Nat.succ_lt_succ hi)
        have h2 : k + (i + 1) = k + 1 + i := by omega
        simpa [h2] using h1)
      (by
        have h2 : k + (p :: pre).length = k + 1 + pre.length := by simp; omega
        rw [h2] at hc
        exact hc)
    simp [run_commands, hp, ih]

/-- With a non-empty test list, the whole run is the run of the first test:
the loop body ends in `sys.exit` on every path. -/
theorem runMain_cons (gitTag : String) (hc : Bool) (exec : Nat → String → Nat)
    (fs : List String) (cfg : Args) (t : String) (rest : List String)
    (h : cfg.test = t :: rest) :
    runMain gitTag hc exec fs cfg = runTest gitTag hc exec fs cfg t := by
  simp [runMain, h]

/-- Every run of a single test exits with code 0 or 1. -/
theorem runTest_code (gitTag : String) (hc : Bool) (exec : Nat → String → Nat)
    (fs : List String) (cfg : Args) (t : String) :
    (runTest gitTag hc exec fs cfg t).exitCode = 0 ∨
    (runTest gitTag hc exec fs cfg t).exitCode = 1 := by
  simp only [runTest]
  rcases hcb : chooseBuilder (pyLower cfg.simulator) with _ | b
  · simp
  · rcases hbr : b { cfg with simulator := pyLower cfg.simulator } fs t with e | cmds
    · simp [hbr]
    · simp only [hbr, runBuilt]
      by_cases hdry : cfg.dry = true
      · simp [hdry]
      · simp only [if_neg hdry]
        simpa using run_commands_code exec cmds 0

/-- The dispatch can only ever produce the Icarus builder, the Verilator
builder, or nothing. -/
theorem chooseBuilder_cases (sim : String) :
    chooseBuilder sim = none ∨ chooseBuilder sim = some create_iverilog ∨
    chooseBuilder sim = some create_verilator := by
  unfold chooseBuilder
  split
  · right; left; rfl
  · split
    · right; right; rfl
    · left; rfl

/-! ## Claims -/

/-- Claim C7: the define-string formatter maps the semicolon-separated
define string "A=1;B;;C=3" to exactly "-DA=1 -DB -DC=3 ": each non-empty
segment becomes `-D<segment>` followed by a space, and the empty segment
from the consecutive semicolons yields no flag. -/
theorem claim_C7_define_formatting :
    get_defines "A=1;B;;C=3" = "-DA=1 -DB -DC=3 " := by decide

/-- Claim C5: for every test file whose last two characters are not ".v"
and whose last three characters are not ".sv", both command builders return
the descriptive extension error (the `sys.exit(1)` path), and the per-test
run exits with code 1 without handing any command to the shell. -/
theorem claim_C5_unsupported_extension (args : Args) (fs : List String)
    (test : String) (gitTag : String) (hc : Bool) (exec : Nat → String → Nat)
    (h2 : pyTail 2 test ≠ ".v") (h3 : pyTail 3 test ≠ ".sv") :
    create_iverilog args fs test = .error extErrorMsg ∧
    create_verilator args fs test = .error extErrorMsg ∧
    (runTest gitTag hc exec fs args test).exitCode = 1 ∧
    (runTest gitTag hc exec fs args test).ran = [] := by
  have hb : badExtension test = true := by
    simp [badExtension, h2, h3]
  have hiv : ∀ (a : Args), create_iverilog a fs test = .error extErrorMsg := fun a => by
    simp [create_iverilog, hb]
  have hvl : ∀ (a : Args), create_verilator a fs test = .error extErrorMsg := fun a => by
    simp [create_verilator, hb]
  refine ⟨hiv args, hvl args, ?_⟩
  simp only [runTest]
  rcases chooseBuilder_cases (pyLower args.simulator) with hcb | hcb | hcb <;>
    rw [hcb] <;> simp [hiv, hvl]

/-- Witness for C5 at the concrete file `foo.txt`. -/
theorem claim_C5_witness :
    create_iverilog sampleArgs [] "foo.txt" = .error extErrorMsg ∧
    create_verilator sampleArgs [] "foo.txt" = .error extErrorMsg ∧
    (runTest "v0.0.0" false execAllOk [] sampleArgs "foo.txt").exitCode = 1 ∧
    (runTest "v0.0.0" false execAllOk [] sampleArgs "foo.txt").ran = [] :=
  claim_C5_unsupported_extension sampleArgs [] "foo.txt" "v0.0.0" false execAllOk
    (by decide) (by decide)

/-- Claim C6: discovery returns exactly the regular files of the listing
matching one of the fixed start patterns or one of the fixed suffixes, the
result has no duplicates, and every returned file (in particular one
matching both a start pattern and a suffix) appears exactly once. -/
theorem claim_C6_discovery (entries fs : List String) (f : String) :
    (f ∈ find_unit_tests entries fs ↔
      f ∈ entries ∧ f ∈ fs ∧
        ((∃ p ∈ supported_prefixes, pyStartswith f p = true) ∨
         (∃ s ∈ supported_suffixes, pyEndswith f s = true))) ∧
    (find_unit_tests entries fs).Nodup ∧
    (f ∈ find_unit_tests entries fs → (find_unit_tests entries fs).count f = 1) := by
  have hnd : (find_unit_tests entries fs).Nodup := List.nodup_dedup _
  refine ⟨?_, hnd, fun hmem => List.count_eq_one_of_mem hnd hmem⟩
  unfold find_unit_tests
  rw [List.mem_dedup, List.mem_flatMap]
  constructor
  · rintro ⟨e, he, hm⟩
    rcases (mem_entryMatches fs e f).1 hm with ⟨rfl, hfs, hmatch⟩
    exact ⟨he, hfs, hmatch.symm⟩
  · rintro ⟨he, hfs, hmatch⟩
    exact ⟨f, he, (mem_entryMatches fs f f).2 ⟨rfl, hfs, hmatch.symm⟩⟩

/-- Witness for C6 at a file matching both a start pattern (`tb_`) and a
suffix (`_tb.sv`): it is discovered exactly once. -/
theorem claim_C6_witness :
    (find_unit_tests ["tb_a_tb.sv"] ["tb_a_tb.sv"]).count "tb_a_tb.sv" = 1 :=
  (claim_C6_discovery ["tb_a_tb.sv"] ["tb_a_tb.sv"] "tb_a_tb.sv").2.2 (by decide)

/-- Claim C8: for the Icarus builder with GUI mode on, the final command of
the generated list launches the waveform viewer, with the save file
`wave.gtkw` exactly when that file exists in the working directory. -/
theorem claim_C8_gui_viewer (args : Args) (fs : List String) (test : String)
    (l : List String) (hgui : args.gui = true)
    (h : create_iverilog args fs test = .ok l) :
    l.getLast? = some (if "wave.gtkw" ∈ fs then "gtkwave *.lxt wave.gtkw &"
      else "gtkwave *.lxt &") := by
  simp only [create_iverilog, hgui] at h
  by_cases hb : badExtension test = true
  · rw [if_pos hb] at h
    cases h
  · rw [if_neg hb] at h
    simp only [if_true] at h
    by_cases hw : "wave.gtkw" ∈ fs
    · rw [if_pos hw] at h
      cases h
      simp [if_pos hw, List.getLast?_concat]
    · rw [if_neg hw] at h
      cases h
      simp [if_neg hw, List.getLast?_concat]

/-- Witness for C8: GUI run of `tb_a.sv` with `wave.gtkw` present. -/
theorem claim_C8_witness :
    (["rm -f icarus.out", "iverilog -g2012 -Wall -o icarus.out tb_a.sv ",
      "vvp icarus.out -lxt;", "gtkwave *.lxt wave.gtkw &"] : List String).getLast? =
      some (if "wave.gtkw" ∈ (["wave.gtkw"] : List String) then "gtkwave *.lxt wave.gtkw &"
        else "gtkwave *.lxt &") :=
  claim_C8_gui_viewer { sampleArgs with gui := true } ["wave.gtkw"] "tb_a.sv" _ rfl rfl

/-- Claim C9: the Verilator builder derives the module name as the test
path's basename up to its first dot (`./dir/my_test.sv` gives `my_test`),
and uses that name in the `--top-module` flag of the compile command, in
the generated-makefile invocation, and in the built binary path
`build/V<name>`. -/
theorem claim_C9_verilator_module_name (args : Args) (fs : List String)
    (test : String) (l : List String)
    (h : create_verilator args fs test = .ok l) :
    verilatorTestname "./dir/my_test.sv" = "my_test" ∧
    l = ["rm -fr build",
         verilatorFlags args fs ++ "-cc --exe --build -j --top-module " ++
           verilatorTestname test ++ " " ++ test ++ " " ++ args.main,
         "make -j -C build -f V" ++ verilatorTestname test ++ ".mk V" ++
           verilatorTestname test,
         "build/V" ++ verilatorTestname test] := by
  refine ⟨by decide, ?_⟩
  simp only [create_verilator] at h
  by_cases hb : badExtension test = true
  · rw [if_pos hb] at h
    cases h
  · rw [if_neg hb] at h
    cases h
    simp

/-- A configuration selecting the Verilator toolchain. -/
def vArgs : Args := { sampleArgs with simulator := "verilator" }

/-- The Verilator command list for `./dir/my_test.sv` under `vArgs`. -/
def vSampleCmds : List String :=
  ["rm -fr build",
   "verilator -Wall --trace --Mdir build +1800-2017ext+sv +1800-2005ext+v " ++
     "-Wno-STMTDLY -Wno-UNUSED -Wno-UNDRIVEN -Wno-PINCONNECTEMPTY " ++
     "-Wpedantic -Wno-VARHIDDEN -Wno-lint -cc --exe --build -j " ++
     "--top-module my_test ./dir/my_test.sv sim_main.cpp",
   "make -j -C build -f Vmy_test.mk Vmy_test",
   "build/Vmy_test"]

/-- Witness for C9 at the spec's concrete path `./dir/my_test.sv`. -/
theorem claim_C9_witness :
    verilatorTestname "./dir/my_test.sv" = "my_test" ∧
    vSampleCmds = ["rm -fr build",
      verilatorFlags vArgs [] ++ "-cc --exe --build -j --top-module " ++
        verilatorTestname "./dir/my_test.sv" ++ " " ++ "./dir/my_test.sv" ++ " " ++ vArgs.main,
      "make -j -C build -f V" ++ verilatorTestname "./dir/my_test.sv" ++ ".mk V" ++
        verilatorTestname "./dir/my_test.sv",
      "build/V" ++ verilatorTestname "./dir/my_test.sv"] :=
  claim_C9_verilator_module_name vArgs [] "./dir/my_test.sv" vSampleCmds rfl

/-- Claim C10: the Verilator builder's output is independent of the GUI
flag and the VPI string: two configurations equal in every other field
produce identical command lists (no viewer command and no VPI splice is
ever generated for Verilator). -/
theorem claim_C10_verilator_independent_of_gui_vpi (a b : Args)
    (fs : List String) (test : String)
    (ht : a.test = b.test) (hdot : a.dotfile = b.dotfile)
    (hsim : a.simulator = b.simulator) (hmain : a.main = b.main)
    (hdef : a.define = b.define) (hdry : a.dry = b.dry)
    (hinc : a.includeDirs = b.includeDirs) :
    create_verilator a fs test = create_verilator b fs test := by
  cases a
  cases b
  simp only at ht hdot hsim hmain hdef hdry hinc
  subst ht
  subst hdot
  subst hsim
  subst hmain
  subst hdef
  subst hdry
  subst hinc
  rfl

/-- Witness for C10: GUI on plus a VPI string versus both off. -/
theorem claim_C10_witness :
    create_verilator { vArgs with gui := true, vpi := "-M. -mMyVPI" } [] "tb_a.sv" =
      create_verilator vArgs [] "tb_a.sv" :=
  claim_C10_verilator_independent_of_gui_vpi
    { vArgs with gui := true, vpi := "-M. -mMyVPI" } vArgs [] "tb_a.sv"
    rfl rfl rfl rfl rfl rfl rfl

/-- Counterexample to Claim C1: two discovered tests, and a shell where the
first test's last command (`vvp icarus.out `, the third shell call, index 2)
fails while every other call — in particular each call a second test would
make — succeeds.  The claim predicts overall exit code 0; the program exits
with code 1, and the second test's compile command is never run. -/
theorem claim_C1_counterexample :
    (runMain "v0.0.0" false execFailThird [] sampleArgs).exitCode = 1 ∧
    "iverilog -g2012 -Wall -o icarus.out tb_b.sv " ∉
      (runMain "v0.0.0" false execFailThird [] sampleArgs).ran := by
  decide

/-- Claim C1 (amended): `sys.exit(cmdret)` sits inside the per-test loop, so
the whole run is the run of the first test and the overall exit code is the
first test's result code (0 or 1); within the executed command sequence, a
first failing command always yields result code exactly 1, whatever its raw
status. -/
theorem claim_C1_exit_code_first_test (gitTag : String) (hc : Bool)
    (exec : Nat → String → Nat) (fs : List String) (cfg : Args)
    (t : String) (rest : List String) (h : cfg.test = t :: rest) :
    runMain gitTag hc exec fs cfg = runTest gitTag hc exec fs cfg t ∧
    ((runMain gitTag hc exec fs cfg).exitCode = 0 ∨
     (runMain gitTag hc exec fs cfg).exitCode = 1) ∧
    (∀ (pre : List String) (k : Nat) (c : String) (post : List String),
      (∀ i (hi : i < pre.length), exec (k + i) (pre.get ⟨i, hi⟩) = 0) →
      exec (k + pre.length) c ≠ 0 →
      (run_commands exec k (pre ++ c :: post)).1 = 1) := by
  have hmain := runMain_cons gitTag hc exec fs cfg t rest h
  refine ⟨hmain, ?_, ?_⟩
  · rw [hmain]
    exact runTest_code gitTag hc exec fs cfg t
  · intro pre k c post hpre hfail
    rw [run_commands_fail exec pre k c post hpre hfail]

/-- Witness for the amended C1 on the counterexample scenario. -/
theorem claim_C1_witness :
    runMain "v0.0.0" false execFailThird [] sampleArgs =
      runTest "v0.0.0" false execFailThird [] sampleArgs "tb_a.sv" :=
  (claim_C1_exit_code_first_test "v0.0.0" false execFailThird [] sampleArgs
    "tb_a.sv" ["tb_b.sv"] rfl).1

/-- Counterexample to Claim C2: two discovered tests, and a shell where the
first test's compile command (second call, index 1) fails.  The remaining
command of the first test is indeed skipped and the diagnostic printed, but
the second test is NOT attempted: the program exits 1 right after the first
test, and no command of the second test is ever run. -/
theorem claim_C2_counterexample :
    (runMain "v0.0.0" false execFailSecond [] sampleArgs).exitCode = 1 ∧
    OutEvent.line "ERROR: Command failed: iverilog -g2012 -Wall -o icarus.out tb_a.sv "
      ∈ (runMain "v0.0.0" false execFailSecond [] sampleArgs).output ∧
    "vvp icarus.out " ∉ (runMain "v0.0.0" false execFailSecond [] sampleArgs).ran ∧
    "iverilog -g2012 -Wall -o icarus.out tb_b.sv " ∉
      (runMain "v0.0.0" false execFailSecond [] sampleArgs).ran := by
  decide

/-- Claim C2 (amended): when a command fails, the remaining commands of the
current test are skipped and a diagnostic naming the failed command is
printed; but the trailing `sys.exit(cmdret)` inside the loop then terminates
the program with code 1, so subsequent tests of a multi-test run are never
attempted (the whole run is the first test's run). -/
theorem claim_C2_failure_scope (gitTag : String) (hc : Bool)
    (exec : Nat → String → Nat) (fs : List String) (cfg : Args)
    (t : String) (rest : List String)
    (builder : Args → List String → String → Except String (List String))
    (cmds pre : List String) (c : String) (post : List String)
    (ht : cfg.test = t :: rest)
    (hdry : cfg.dry = false)
    (hcb : chooseBuilder (pyLower cfg.simulator) = some builder)
    (hok : builder { cfg with simulator := pyLower cfg.simulator } fs t = .ok cmds)
    (hsplit : cmds = pre ++ c :: post)
    (hpre : ∀ i (hi : i < pre.length), exec i (pre.get ⟨i, hi⟩) = 0)
    (hfail : exec pre.length c ≠ 0) :
    (runMain gitTag hc exec fs cfg).exitCode = 1 ∧
    OutEvent.line ("ERROR: Command failed: " ++ c) ∈
      (runMain gitTag hc exec fs cfg).output ∧
    (runMain gitTag hc exec fs cfg).ran = pre ++ [c] ∧
    runMain gitTag hc exec fs cfg = runTest gitTag hc exec fs cfg t := by
  have hmain := runMain_cons gitTag hc exec fs cfg t rest ht
  have hrc : run_commands exec 0 cmds =
      (1, (pre.map OutEvent.line) ++
            [.line c, .line ("ERROR: Command failed: " ++ c)],
       pre ++ [c]) := by
    rw [hsplit]
    exact run_commands_fail exec pre 0 c post
      (fun i hi => by simpa using hpre i hi)
      (by simpa using hfail)
  have hnd : ¬ cfg.dry = true := by simp [hdry]
  rw [hmain]
  simp only [runTest, hcb, hok, runBuilt, if_neg hnd, hrc]
  refine ⟨?_, ?_, ?_, ?_⟩ <;> simp

/-- Witness for the amended C2 on the counterexample scenario. -/
theorem claim_C2_witness :
    (runMain "v0.0.0" false execFailSecond [] sampleArgs).exitCode = 1 ∧
    OutEvent.line ("ERROR: Command failed: " ++ "iverilog -g2012 -Wall -o icarus.out tb_a.sv ")
      ∈ (runMain "v0.0.0" false execFailSecond [] sampleArgs).output ∧
    (runMain "v0.0.0" false execFailSecond [] sampleArgs).ran =
      ["rm -f icarus.out"] ++ ["iverilog -g2012 -Wall -o icarus.out tb_a.sv "] ∧
    runMain "v0.0.0" false execFailSecond [] sampleArgs =
      runTest "v0.0.0" false execFailSecond [] sampleArgs "tb_a.sv" :=
  claim_C2_failure_scope "v0.0.0" false execFailSecond [] sampleArgs
    "tb_a.sv" ["tb_b.sv"] create_iverilog
    ["rm -f icarus.out", "iverilog -g2012 -Wall -o icarus.out tb_a.sv ",
     "vvp icarus.out "]
    ["rm -f icarus.out"] "iverilog -g2012 -Wall -o icarus.out tb_a.sv "
    ["vvp icarus.out "]
    rfl rfl rfl rfl rfl (by decide) (by decide)

/-- Counterexample to Claim C3: with simulator name "Icarus" the execution
driver rewrites the configuration's simulator field in place to "icarus"
(`ARGS.simulator = ARGS.simulator.lower()` inside the loop): the
configuration is not immutable after parsing. -/
theorem claim_C3_counterexample :
    (runMain "v0.0.0" false execAllOk []
        { sampleArgs with simulator := "Icarus" }).finalArgs.simulator = "icarus" ∧
    (runMain "v0.0.0" false execAllOk []
        { sampleArgs with simulator := "Icarus" }).finalArgs ≠
      { sampleArgs with simulator := "Icarus" } := by
  decide

/-- Claim C3 (amended): the configuration is not fully immutable: during the
(first and only) loop iteration the driver lowercases the simulator field in
place; every other field — test list, dotfile paths, include directories,
defines, GUI flag, dry-run flag, VPI string, Verilator main file — is left
unmodified by test discovery, command construction, and execution. -/
theorem claim_C3_config_mutation (gitTag : String) (hc : Bool)
    (exec : Nat → String → Nat) (fs : List String) (cfg : Args)
    (t : String) (rest : List String) (h : cfg.test = t :: rest) :
    (runMain gitTag hc exec fs cfg).finalArgs =
      { cfg with simulator := pyLower cfg.simulator } := by
  rw [runMain_cons gitTag hc exec fs cfg t rest h]
  simp only [runTest]
  rcases hcb : chooseBuilder (pyLower cfg.simulator) with _ | b
  · rfl
  · rcases hbr : b { cfg with simulator := pyLower cfg.simulator } fs t with e | cmds
    · simp [hbr]
    · simp only [hbr, runBuilt]
      by_cases hdry : cfg.dry = true
      · simp [hdry]
      · simp [if_neg hdry]

/-- Witness for the amended C3: an uppercase simulator name comes out
lowercased, everything else untouched. -/
theorem claim_C3_witness :
    (runMain "v0.0.0" false execAllOk []
        { sampleArgs with simulator := "Icarus" }).finalArgs =
      { { sampleArgs with simulator := "Icarus" } with
          simulator := pyLower ({ sampleArgs with simulator := "Icarus" } : Args).simulator } :=
  claim_C3_config_mutation "v0.0.0" false execAllOk []
    { sampleArgs with simulator := "Icarus" } "tb_a.sv" ["tb_b.sv"] rfl

/-- Counterexample to Claim C4: a dry run with two discovered tests exits 0
during the first loop iteration, so the second test's command list — which
the claim says is printed for every test — never appears in the output. -/
theorem claim_C4_counterexample :
    (runMain "v0.0.0" false execAllOk [] { sampleArgs with dry := true }).exitCode = 0 ∧
    OutEvent.cmdList ["rm -f icarus.out",
        "iverilog -g2012 -Wall -o icarus.out tb_b.sv ", "vvp icarus.out "] ∉
      (runMain "v0.0.0" false execAllOk [] { sampleArgs with dry := true }).output := by
  decide

/-- Claim C4 (amended): if dry-run mode is set, the program prints the
version header and the full constructed command list for the first test and
terminates with exit code 0 before any banner, timing, or command execution;
no constructed command is handed to the shell (so no artifact such as
`icarus.out` is created).  Command lists of subsequent tests are not printed,
because the `sys.exit(0)` happens inside the first loop iteration. -/
theorem claim_C4_dry_run (gitTag : String) (hc : Bool)
    (exec : Nat → String → Nat) (fs : List String) (cfg : Args)
    (t : String) (rest : List String)
    (builder : Args → List String → String → Except String (List String))
    (cmds : List String)
    (ht : cfg.test = t :: rest) (hdry : cfg.dry = true)
    (hcb : chooseBuilder (pyLower cfg.simulator) = some builder)
    (hok : builder { cfg with simulator := pyLower cfg.simulator } fs t = .ok cmds) :
    runMain gitTag hc exec fs cfg =
      { exitCode := 0
        output := (if hc then [.line "INFO: Copy newest version of svut_h.sv"] else []) ++
          [.line ("SVUT " ++ gitTag ++ " dry-run: "), .cmdList cmds]
        ran := []
        finalArgs := { cfg with simulator := pyLower cfg.simulator } } := by
  rw [runMain_cons gitTag hc exec fs cfg t rest ht]
  simp only [runTest, hcb, hok, runBuilt, if_pos hdry]

/-- Witness for the amended C4: dry run of the discovered `tb_a.sv`. -/
theorem claim_C4_witness :
    runMain "v0.0.0" false execAllOk [] { sampleArgs with dry := true } =
      { exitCode := 0
        output := (if false then [.line "INFO: Copy newest version of svut_h.sv"] else []) ++
          [.line ("SVUT " ++ "v0.0.0" ++ " dry-run: "),
           .cmdList ["rm -f icarus.out",
             "iverilog -g2012 -Wall -o icarus.out tb_a.sv ", "vvp icarus.out "]]
        ran := []
        finalArgs := { { sampleArgs with dry := true } with
          simulator := pyLower ({ sampleArgs with dry := true } : Args).simulator } } :=
  claim_C4_dry_run "v0.0.0" false execAllOk [] { sampleArgs with dry := true }
    "tb_a.sv" ["tb_b.sv"] create_iverilog
    ["rm -f icarus.out", "iverilog -g2012 -Wall -o icarus.out tb_a.sv ",
     "vvp icarus.out "]
    rfl rfl rfl rfl

end SvutRun
